import Mathlib

/-!
Verification development for the economic-concept visualizer
(`econ_viz.py`).  The renderer is embedded shallowly: every matplotlib
call that puts ink on the canvas (`add_patch` of a rectangle or circle,
`annotate` with an arrow, `ax.text`) becomes a `Prim` value, a finished
canvas holds the list of emitted primitives in draw order, and the
visualizer object becomes an explicit state record.  Coordinates and
style scalars are exact rationals; color names, font weights and
alignment strings are kept as strings, matching the Python source.
Filesystem persistence (`plt.savefig`) is modelled as a distinct event
kind so that "draws" and "persists" are distinguishable in the
event trace of a call.
-/

namespace EconViz

/-- A geometric drawing primitive, mirroring the matplotlib calls made by
the visualizer.  `rect` stores the lower-left corner (as
`mpatches.Rectangle` does) plus width/height; `circle` stores center and
radius; `arrow` stores the two endpoints of the arrow of `ax.annotate`;
`text` stores the anchor point, content, font size, horizontal/vertical
alignment, weight, color, and the opacity of the glassmorphism backing
box when one is drawn (`none` when the text has no backing box). -/
inductive Prim where
  | rect (x y width height : ℚ) (facecolor edgecolor : String) (linewidth alpha : ℚ)
  | circle (x y radius : ℚ) (facecolor edgecolor : String) (linewidth : ℚ)
  | arrow (x1 y1 x2 y2 : ℚ) (linewidth : ℚ) (color : String) (alpha : ℚ)
  | text (x y : ℚ) (content : String) (fontsize : ℚ) (ha : String) (va : Option String)
      (weight : String) (color : String) (bboxAlpha : Option ℚ)
deriving DecidableEq

/-- Whether a primitive is a rectangle patch. -/
def Prim.isRect : Prim → Bool
  | .rect .. => true
  | _ => false

/-- Whether a primitive is a circle patch. -/
def Prim.isCircle : Prim → Bool
  | .circle .. => true
  | _ => false

/-- Whether a primitive is a text draw. -/
def Prim.isText : Prim → Bool
  | .text .. => true
  | _ => false

/-- Whether a primitive is an arrow. -/
def Prim.isArrow : Prim → Bool
  | .arrow .. => true
  | _ => false

/-- `Agent` dataclass: economic agent (person, firm, country, ...).
`type` is a string at runtime (the Python `Literal` is unchecked), so
unknown kinds are representable, as the silent-skip branch of the code
requires. -/
structure Agent where
  type : String
  id : String
  count : Nat := 1
  position : ℚ × ℚ := (0, 0)
  color : String := "tan"
  label : Option String := none
deriving DecidableEq

/-- `Good` dataclass: a product or resource. -/
structure Good where
  type : String
  count : Nat
  position : ℚ × ℚ
  color : String := "white"
  size : ℚ := 3/10
deriving DecidableEq

/-- `Flow` dataclass: exchange or information flow between two points.
The label is a plain string defaulting to `""` (the Python code tests it
with truthiness, i.e. non-emptiness). -/
structure Flow where
  from_pos : ℚ × ℚ
  to_pos : ℚ × ℚ
  label : String := ""
  thickness : ℚ := 2
  color : String := "white"
deriving DecidableEq

/-- `Label` dataclass: glassmorphism-style text label. -/
structure Label where
  text : String
  position : ℚ × ℚ
  fontsize : Nat := 11
  style : String := "normal"
deriving DecidableEq

/-- `TimeStep` dataclass: complete state at a specific time. -/
structure TimeStep where
  t : Nat
  agents : List Agent := []
  goods : List Good := []
  flows : List Flow := []
  labels : List Label := []
deriving DecidableEq

/-- `MetaCategories` dataclass: meta-categorization framework.  The
renderer never reads it; it is carried only for fidelity of
`EconomicConcept`. -/
structure MetaCategories where
  agent_types : List String
  scale_level : String
  interaction_pattern : String
  information_structure : String
  time_structure : String
  decision_scope : List String
  equilibrium_concept : Option String := none
deriving DecidableEq

/-- `EconomicConcept` dataclass: named concept with meta-categorization
and an ordered sequence of time steps. -/
structure EconomicConcept where
  name : String
  description : String
  meta : MetaCategories
  time_steps : List TimeStep
  wiki_url : Option String := none
deriving DecidableEq

/-- A canvas: the figure/axes pair produced by `setup_canvas`, carrying
the fixed viewport configuration and the list of primitives drawn onto
it, in draw order.  `tight_layout` records whether `plt.tight_layout()`
was applied (done at the end of `render_timestep`). -/
structure Canvas where
  figsize : ℚ × ℚ
  xlim : ℚ × ℚ := (-10, 10)
  ylim : ℚ × ℚ := (-8, 8)
  aspect : String := "equal"
  axis_on : Bool := false
  facecolor : String := "white"
  prims : List Prim := []
  tight_layout : Bool := false
deriving DecidableEq

/-- `EconVisualizer` object state: the configured figure size and the
currently active canvas (`self.fig`/`self.ax`), `none` right after
`__init__`. -/
structure EconVisualizer where
  figsize : ℚ × ℚ := (14, 10)
  canvas : Option Canvas := none
deriving DecidableEq

/-- `setup_canvas`: initialize a clean canvas — fixed bounds
`[-10,10] × [-8,8]`, equal aspect, axes off, white background, nothing
drawn yet. -/
def setup_canvas (figsize : ℚ × ℚ) : Canvas :=
  { figsize := figsize }

/-- `draw_agent`: dispatch on the agent kind.  Structural kinds get a
rectangle centered at `position` (2.0×1.6 for `country`, 1.5×1.2
otherwise) plus a bold centered text when the label is truthy (present
and non-empty); `individual` gets a radius-0.25 circle and never a
label; any other kind string draws nothing. -/
def draw_agent (agent : Agent) : List Prim :=
  let x := agent.position.1
  let y := agent.position.2
  if agent.type = "country" ∨ agent.type = "firm" ∨ agent.type = "institution" ∨
      agent.type = "market" then
    let width : ℚ := if agent.type = "country" then 2 else 3/2
    let height : ℚ := if agent.type = "country" then 8/5 else 6/5
    let rect := Prim.rect (x - width/2) (y - height/2) width height agent.color "#333" (3/2) (17/20)
    match agent.label with
    | some s =>
      if s ≠ "" then
        [rect, Prim.text x y s 9 "center" (some "center") "bold" "#333" none]
      else [rect]
    | none => [rect]
  else if agent.type = "individual" then
    [Prim.circle x y (1/4) agent.color "#333" 1]
  else
    []

/-- `draw_good`: a small filled square of side `size` centered at
`position`, thin border, fill opacity 0.9. -/
def draw_good (good : Good) : List Prim :=
  let x := good.position.1
  let y := good.position.2
  let size := good.size
  [Prim.rect (x - size/2) (y - size/2) size size good.color "#333" (4/5) (9/10)]

/-- `draw_label`: glassmorphism-style label.  Style table: `title` →
16/bold/0.8, `subtitle` → 13/semibold/0.75, anything else →
`label.fontsize`/normal/0.7.  One centered text with a backing box. -/
def draw_label (label : Label) : List Prim :=
  let fwa : ℚ × String × ℚ :=
    if label.style = "title" then (16, "bold", 4/5)
    else if label.style = "subtitle" then (13, "semibold", 3/4)
    else ((label.fontsize : ℚ), "normal", 7/10)
  [Prim.text label.position.1 label.position.2 label.text fwa.1 "center" (some "center")
    fwa.2.1 "#333" (some fwa.2.2)]

/-- `draw_flow`: a straight arrow from `from_pos` to `to_pos` with line
width `thickness`, the color of the flow, opacity 0.9; when the label string
is non-empty, additionally a normal-style size-9 label at the segment
midpoint shifted by +0.3 in y (via `draw_label`). -/
def draw_flow (flow : Flow) : List Prim :=
  let arrow := Prim.arrow flow.from_pos.1 flow.from_pos.2 flow.to_pos.1 flow.to_pos.2
    flow.thickness flow.color (9/10)
  if flow.label ≠ "" then
    let mid_x := (flow.from_pos.1 + flow.to_pos.1) / 2
    let mid_y := (flow.from_pos.2 + flow.to_pos.2) / 2
    arrow :: draw_label { text := flow.label, position := (mid_x, mid_y + 3/10), fontsize := 9 }
  else
    [arrow]

/-- The title text drawn at the end of `render_timestep`: content
composed as `name ++ " (t=" ++ t ++ ")"`, anchored at `(0, 7.5)`,
horizontally centered, font size 18, bold, no backing box. -/
def title_text (concept : EconomicConcept) (timestep : TimeStep) : Prim :=
  Prim.text 0 (15/2) (concept.name ++ " (t=" ++ toString timestep.t ++ ")") 18 "center" none
    "bold" "#222" none

/-- The body of `render_timestep` once a time step has been selected:
loop over the agents, then the goods, then the flows, then the labels,
appending the primitives of each entity, and finally draw the title. -/
def render_body (concept : EconomicConcept) (timestep : TimeStep) : List Prim :=
  let p := timestep.agents.foldl (fun acc a => acc ++ draw_agent a) []
  let p := timestep.goods.foldl (fun acc g => acc ++ draw_good g) p
  let p := timestep.flows.foldl (fun acc f => acc ++ draw_flow f) p
  let p := timestep.labels.foldl (fun acc l => acc ++ draw_label l) p
  p ++ [title_text concept timestep]

/-- Python list indexing `xs[i]` on an `int` index: a non-negative index
selects from the front, a negative index `i` selects `xs[len + i]`, and
anything outside `[-len, len)` is an `IndexError`, modelled as `none`.
No clamping. -/
def py_list_get {α : Type} (xs : List α) (i : Int) : Option α :=
  if 0 ≤ i then
    xs[i.toNat]?
  else if 0 ≤ (xs.length : Int) + i then
    xs[((xs.length : Int) + i).toNat]?
  else
    none

/-- An observable effect of a visualizer call: either putting one
primitive on the active canvas, or persisting the figure to a file
(`plt.savefig`).  `render_timestep` only ever emits `draw` events;
`save` emits a `savefig` event. -/
inductive Event where
  | draw (p : Prim)
  | savefig (filename : String) (dpi : Nat)
deriving DecidableEq

/-- Whether an event is a drawing event (as opposed to persistence). -/
def Event.isDraw : Event → Bool
  | .draw _ => true
  | .savefig _ _ => false

/-- Result of a `render_timestep` call: the visualizer state after the
call (meaningful even when the call raises), the raised exception if
any (`none` = normal return), and the trace of effects the call
performed. -/
structure RenderResult where
  viz : EconVisualizer
  raised : Option String
  events : List Event
deriving DecidableEq

/-- `render_timestep`: set up a fresh canvas (this replaces the active
canvas unconditionally), then select `concept.time_steps[timestep_idx]`
— raising an `IndexError` if out of range, after which nothing has been
drawn — and otherwise draw the full body onto the fresh canvas and
apply `tight_layout`.  Nothing is persisted. -/
def render_timestep (viz : EconVisualizer) (concept : EconomicConcept)
    (timestep_idx : Int) : RenderResult :=
  let fresh := setup_canvas viz.figsize
  let viz1 : EconVisualizer := { viz with canvas := some fresh }
  match py_list_get concept.time_steps timestep_idx with
  | none =>
    { viz := viz1, raised := some "IndexError: list index out of range", events := [] }
  | some timestep =>
    let prims := render_body concept timestep
    { viz := { viz1 with canvas := some { fresh with prims := prims, tight_layout := true } },
      raised := none,
      events := prims.map Event.draw }

/-- `save`: persist the current figure to a file.  Its effect trace is a
single `savefig` event — persistence lives here, not in
`render_timestep`. -/
def save (filename : String) (dpi : Nat) : List Event :=
  [Event.savefig filename dpi]

/-- Concatenation of the per-element primitive lists, in input order
(the semantics of a `for` loop that appends the output of each entity). -/
def concatMap {α β : Type} (f : α → List β) : List α → List β
  | [] => []
  | x :: xs => f x ++ concatMap f xs

/-! ### Helper lemmas -/

/-- A left fold that appends the output of each element starting from `acc`
is `acc` followed by the concatenation of all outputs. -/
theorem foldl_append_eq_concatMap {α β : Type} (f : α → List β) (xs : List α)
    (acc : List β) :
    xs.foldl (fun a x => a ++ f x) acc = acc ++ concatMap f xs := by
  induction xs generalizing acc with
  | nil => simp [concatMap]
  | cons x xs ih => simp [concatMap, List.foldl_cons, ih, List.append_assoc]

/-- The body of a render decomposes into the four per-category segments,
in the fixed order agents, goods, flows, labels, followed by the single
title text. -/
theorem render_body_eq (concept : EconomicConcept) (timestep : TimeStep) :
    render_body concept timestep =
      concatMap draw_agent timestep.agents ++ concatMap draw_good timestep.goods ++
      concatMap draw_flow timestep.flows ++ concatMap draw_label timestep.labels ++
      [title_text concept timestep] := by
  simp [render_body, foldl_append_eq_concatMap, List.append_assoc]

/-- Python indexing returns nothing exactly on out-of-range indices. -/
theorem py_list_get_eq_none {α : Type} (xs : List α) (i : Int)
    (h : (xs.length : Int) ≤ i ∨ i < -(xs.length : Int)) :
    py_list_get xs i = none := by
  rcases h with h | h
  · have h0 : 0 ≤ i := le_trans (by positivity) h
    have : xs.length ≤ i.toNat := by omega
    simp [py_list_get, h0, List.getElem?_eq_none this]
  · have h0 : ¬ 0 ≤ i := by omega
    have h1 : ¬ 0 ≤ (xs.length : Int) + i := by omega
    simp [py_list_get, h0, h1]

/-- Python indexing with a negative index in `[-len, 0)` selects the
element at `len + i`, which exists. -/
theorem py_list_get_neg {α : Type} (xs : List α) (i : Int)
    (h1 : -(xs.length : Int) ≤ i) (h2 : i < 0) :
    ∃ a, xs[((xs.length : Int) + i).toNat]? = some a ∧ py_list_get xs i = some a := by
  have h0 : ¬ 0 ≤ i := by omega
  have h3 : 0 ≤ (xs.length : Int) + i := by omega
  have h4 : ((xs.length : Int) + i).toNat < xs.length := by omega
  refine ⟨xs[((xs.length : Int) + i).toNat], ?_, ?_⟩
  · exact List.getElem?_eq_getElem h4
  · simp [py_list_get, h0, h3, List.getElem?_eq_getElem h4]

/-- `render_timestep` keeps the configured figure size unchanged. -/
theorem render_timestep_figsize (viz : EconVisualizer) (concept : EconomicConcept)
    (idx : Int) : (render_timestep viz concept idx).viz.figsize = viz.figsize := by
  cases h : py_list_get concept.time_steps idx <;> simp [render_timestep, h]

/-- The result of `render_timestep` depends on the incoming visualizer
state only through its figure size: in particular the previously active
canvas is irrelevant. -/
theorem render_timestep_congr (v1 v2 : EconVisualizer) (concept : EconomicConcept)
    (idx : Int) (h : v1.figsize = v2.figsize) :
    render_timestep v1 concept idx = render_timestep v2 concept idx := by
  cases hg : py_list_get concept.time_steps idx <;>
    simp [render_timestep, hg, h]

/-! ### Sample data for witnesses -/

/-- A meta-categorization value (never read by the renderer). -/
def sample_meta : MetaCategories :=
  { agent_types := ["country", "individual"]
    scale_level := "macro"
    interaction_pattern := "bilateral"
    information_structure := "perfect"
    time_structure := "sequential"
    decision_scope := ["production", "trade"]
    equilibrium_concept := some "comparative advantage equilibrium" }

/-- A time step exercising every entity category. -/
def sample_timestep : TimeStep :=
  { t := 0
    agents := [{ type := "country", id := "A", position := (-5, 0), label := some "A" },
               { type := "individual", id := "P", position := (3, 1), label := some "p1" }]
    goods := [{ type := "cloth", count := 1, position := (1, -2), size := 1/4 }]
    flows := [{ from_pos := (-3, 0), to_pos := (3, 0), label := "8 cloth",
                thickness := 5/2, color := "#4A90E2" }]
    labels := [{ text := "COUNTRY A", position := (-5, 3/2), style := "subtitle" }] }

/-- A second, empty time step. -/
def sample_timestep1 : TimeStep := { t := 1 }

/-- A two-frame concept used to instantiate the renderer theorems. -/
def sample_concept : EconomicConcept :=
  { name := "Absolute Advantage"
    description := "One country can produce all goods more efficiently"
    meta := sample_meta
    time_steps := [sample_timestep, sample_timestep1]
    wiki_url := some "https://en.wikipedia.org/wiki/Absolute_advantage" }

/-- A freshly constructed visualizer. -/
def sample_viz : EconVisualizer := {}

/-! ### Claims -/

/-- C1: for every concept and valid frame index, `render_timestep` draws
the entities of the frame in the fixed order agents, then goods, then flows,
then labels, and afterwards draws exactly one title text composed as
`name ++ " (t=" ++ time_index ++ ")"` at the fixed top-center anchor
`(0, 7.5)`, horizontally centered, font size 18, bold. -/
theorem render_timestep_fixed_order_and_title (viz : EconVisualizer)
    (concept : EconomicConcept) (idx : Int) (timestep : TimeStep)
    (h : py_list_get concept.time_steps idx = some timestep) :
    (render_timestep viz concept idx).events =
      (concatMap draw_agent timestep.agents ++ concatMap draw_good timestep.goods ++
       concatMap draw_flow timestep.flows ++ concatMap draw_label timestep.labels ++
       [Prim.text 0 (15/2) (concept.name ++ " (t=" ++ toString timestep.t ++ ")") 18
          "center" none "bold" "#222" none]).map Event.draw := by
  simp [render_timestep, h, render_body_eq, title_text]

/-- Witness for C1 at a concrete concept and index 0. -/
theorem render_timestep_fixed_order_and_title_witness :
    (render_timestep sample_viz sample_concept 0).events =
      (concatMap draw_agent sample_timestep.agents ++
       concatMap draw_good sample_timestep.goods ++
       concatMap draw_flow sample_timestep.flows ++
       concatMap draw_label sample_timestep.labels ++
       [Prim.text 0 (15/2) (sample_concept.name ++ " (t=" ++ toString sample_timestep.t ++ ")")
          18 "center" none "bold" "#222" none]).map Event.draw :=
  render_timestep_fixed_order_and_title sample_viz sample_concept 0 sample_timestep rfl

/-- C2 counterexample: an agent of a structural kind whose
`display_label` is present but equal to the empty string.  The claim
says a text primitive is additionally drawn whenever the label is
present; the code checks the label with Python truthiness, so the empty
string draws no text. -/
theorem draw_agent_empty_label_no_text :
    (Agent.label { type := "firm", id := "F1", position := (1, 2), label := some "" }).isSome
        = true ∧
    ((draw_agent { type := "firm", id := "F1", position := (1, 2), label := some "" }).filter
        Prim.isText) = [] :=
  ⟨rfl, rfl⟩

/-- C2 (amended): for every agent of kind `country`, `firm`,
`institution` or `market`, `draw_agent` emits exactly one rectangle
whose lower-left corner is `position - (width/2, height/2)` — i.e. whose
center is `position` — with width×height 2.0×1.6 for `country` and
1.5×1.2 otherwise, border width 1.5 and fill opacity 0.85; when a
*non-empty* `display_label` is present it additionally draws that text
bold and centered at `position`, and when the label is absent or empty
the rectangle is the only primitive. -/
theorem draw_agent_structural_amended (agent : Agent)
    (h : agent.type = "country" ∨ agent.type = "firm" ∨ agent.type = "institution" ∨
      agent.type = "market") :
    ∃ width height : ℚ,
      ((agent.type = "country" ∧ width = 2 ∧ height = 8/5) ∨
       (agent.type ≠ "country" ∧ width = 3/2 ∧ height = 6/5)) ∧
      (∀ s, agent.label = some s → s ≠ "" →
        draw_agent agent =
          [Prim.rect (agent.position.1 - width/2) (agent.position.2 - height/2) width height
             agent.color "#333" (3/2) (17/20),
           Prim.text agent.position.1 agent.position.2 s 9 "center" (some "center") "bold"
             "#333" none]) ∧
      ((agent.label = none ∨ agent.label = some "") →
        draw_agent agent =
          [Prim.rect (agent.position.1 - width/2) (agent.position.2 - height/2) width height
             agent.color "#333" (3/2) (17/20)]) := by
  by_cases hc : agent.type = "country"
  · refine ⟨2, 8/5, Or.inl ⟨hc, rfl, rfl⟩, ?_, ?_⟩
    · intro s hs hne
      simp [draw_agent, hc, hs, hne]
    · rintro (hl | hl) <;> simp [draw_agent, hc, hl]
  · refine ⟨3/2, 6/5, Or.inr ⟨hc, rfl, rfl⟩, ?_, ?_⟩
    · intro s hs hne
      rcases h with h | h | h | h <;> first
        | exact absurd h hc
        | simp [draw_agent, h, hs, hne]
    · rintro (hl | hl) <;> rcases h with h | h | h | h <;> first
        | exact absurd h hc
        | simp [draw_agent, h, hl]

/-- Witness for C2 (amended) at a concrete `country` agent with a
non-empty label. -/
theorem draw_agent_structural_amended_witness :
    ∃ width height : ℚ,
      ((Agent.type { type := "country", id := "A", position := (-5, 0), label := some "A" }
            = "country" ∧ width = 2 ∧ height = 8/5) ∨
       (Agent.type { type := "country", id := "A", position := (-5, 0), label := some "A" }
            ≠ "country" ∧ width = 3/2 ∧ height = 6/5)) ∧
      (∀ s, Agent.label { type := "country", id := "A", position := (-5, 0), label := some "A" }
          = some s → s ≠ "" →
        draw_agent { type := "country", id := "A", position := (-5, 0), label := some "A" } =
          [Prim.rect ((-5 : ℚ) - width/2) ((0 : ℚ) - height/2) width height "tan" "#333"
             (3/2) (17/20),
           Prim.text (-5) 0 s 9 "center" (some "center") "bold" "#333" none]) ∧
      ((Agent.label { type := "country", id := "A", position := (-5, 0), label := some "A" }
            = none ∨
        Agent.label { type := "country", id := "A", position := (-5, 0), label := some "A" }
            = some "") →
        draw_agent { type := "country", id := "A", position := (-5, 0), label := some "A" } =
          [Prim.rect ((-5 : ℚ) - width/2) ((0 : ℚ) - height/2) width height "tan" "#333"
             (3/2) (17/20)]) :=
  draw_agent_structural_amended
    { type := "country", id := "A", position := (-5, 0), label := some "A" } (Or.inl rfl)

/-- C3: for every agent of kind `individual`, `draw_agent` emits exactly
one circle of radius 0.25 centered at `position`, and no text primitive
even when `display_label` is set (the statement puts no condition on the
label). -/
theorem draw_agent_individual_circle (agent : Agent) (h : agent.type = "individual") :
    draw_agent agent =
      [Prim.circle agent.position.1 agent.position.2 (1/4) agent.color "#333" 1] ∧
    (draw_agent agent).filter Prim.isText = [] := by
  have hd : draw_agent agent =
      [Prim.circle agent.position.1 agent.position.2 (1/4) agent.color "#333" 1] := by
    simp [draw_agent, h]
  exact ⟨hd, by rw [hd]; rfl⟩

/-- Witness for C3 at a concrete individual whose label is set. -/
theorem draw_agent_individual_circle_witness :
    draw_agent { type := "individual", id := "P", position := (3, 1), label := some "p1" } =
      [Prim.circle 3 1 (1/4) "tan" "#333" 1] ∧
    (draw_agent { type := "individual", id := "P", position := (3, 1), label := some "p1" }).filter
        Prim.isText = [] :=
  draw_agent_individual_circle
    { type := "individual", id := "P", position := (3, 1), label := some "p1" } rfl

/-- C4: `draw_flow` emits exactly one arrow from `from_pos` to `to_pos`;
when the label is non-empty it additionally emits exactly one label text
(normal style: weight `normal`, font size 9, panel opacity 0.7) at
`((from.x+to.x)/2, (from.y+to.y)/2 + 0.3)`, and when the label is empty
the arrow is the only primitive. -/
theorem draw_flow_arrow_and_midpoint_label (flow : Flow) :
    draw_flow flow =
      if flow.label = "" then
        [Prim.arrow flow.from_pos.1 flow.from_pos.2 flow.to_pos.1 flow.to_pos.2
           flow.thickness flow.color (9/10)]
      else
        [Prim.arrow flow.from_pos.1 flow.from_pos.2 flow.to_pos.1 flow.to_pos.2
           flow.thickness flow.color (9/10),
         Prim.text ((flow.from_pos.1 + flow.to_pos.1)/2) ((flow.from_pos.2 + flow.to_pos.2)/2 + 3/10)
           flow.label 9 "center" (some "center") "normal" "#333" (some (7/10))] := by
  by_cases h : flow.label = ""
  · simp [draw_flow, h]
  · simp [draw_flow, draw_label, h]
    exact ⟨rfl, rfl, rfl⟩

/-- C5: for every out-of-range frame index (in Python semantics:
`idx ≥ len` or `idx < -len`), `render_timestep` raises the
`IndexError`-equivalent and has emitted no drawing primitive at all — no
partial draw, no clamping. -/
theorem render_timestep_out_of_range_raises (viz : EconVisualizer)
    (concept : EconomicConcept) (idx : Int)
    (h : (concept.time_steps.length : Int) ≤ idx ∨ idx < -(concept.time_steps.length : Int)) :
    (render_timestep viz concept idx).raised = some "IndexError: list index out of range" ∧
    (render_timestep viz concept idx).events = [] := by
  have hn := py_list_get_eq_none concept.time_steps idx h
  constructor <;> simp [render_timestep, hn]

/-- Witness for C5 at a two-frame concept and index 5. -/
theorem render_timestep_out_of_range_raises_witness :
    (render_timestep sample_viz sample_concept 5).raised =
        some "IndexError: list index out of range" ∧
    (render_timestep sample_viz sample_concept 5).events = [] :=
  render_timestep_out_of_range_raises sample_viz sample_concept 5 (Or.inl (by decide))

/-- C6: for every agent whose kind string is none of the five known
kinds, `draw_agent` emits zero primitives (and, being a total function,
raises nothing). -/
theorem draw_agent_unknown_kind (agent : Agent)
    (h1 : agent.type ≠ "individual") (h2 : agent.type ≠ "firm")
    (h3 : agent.type ≠ "institution") (h4 : agent.type ≠ "country")
    (h5 : agent.type ≠ "market") :
    draw_agent agent = [] := by
  simp [draw_agent, h1, h2, h3, h4, h5]

/-- Witness for C6 at the unrecognized kind `government`. -/
theorem draw_agent_unknown_kind_witness :
    draw_agent { type := "government", id := "G" } = [] :=
  draw_agent_unknown_kind { type := "government", id := "G" }
    (by decide) (by decide) (by decide) (by decide) (by decide)

/-- C7: for every valid frame index, `render_timestep` returns normally
with the finished canvas (the fresh canvas holding exactly the rendered
primitives, with `tight_layout` applied) as the active canvas of the
resulting state, and its effect trace consists of drawing events only —
no persistence happens during the call. -/
theorem render_timestep_returns_canvas_no_persist (viz : EconVisualizer)
    (concept : EconomicConcept) (idx : Int) (timestep : TimeStep)
    (h : py_list_get concept.time_steps idx = some timestep) :
    (render_timestep viz concept idx).raised = none ∧
    (render_timestep viz concept idx).viz.canvas =
      some { (setup_canvas viz.figsize) with
             prims := render_body concept timestep
             tight_layout := true } ∧
    (render_timestep viz concept idx).events = (render_body concept timestep).map Event.draw ∧
    (render_timestep viz concept idx).events.all Event.isDraw = true := by
  refine ⟨?_, ?_, ?_, ?_⟩ <;> simp [render_timestep, h, Event.isDraw]

/-- Witness for C7 at a concrete concept and index 1. -/
theorem render_timestep_returns_canvas_no_persist_witness :
    (render_timestep sample_viz sample_concept 1).raised = none ∧
    (render_timestep sample_viz sample_concept 1).viz.canvas =
      some { (setup_canvas sample_viz.figsize) with
             prims := render_body sample_concept sample_timestep1
             tight_layout := true } ∧
    (render_timestep sample_viz sample_concept 1).events =
      (render_body sample_concept sample_timestep1).map Event.draw ∧
    (render_timestep sample_viz sample_concept 1).events.all Event.isDraw = true :=
  render_timestep_returns_canvas_no_persist sample_viz sample_concept 1 sample_timestep1 rfl

/-- C8: rendering the same frame again, starting from the state the
first call left behind, produces the identical result — same canvas,
same primitive sequence, same outcome.  Each call re-initializes the
canvas, so the renderer carries no hidden cross-call state (the only
state read is the configured figure size, which rendering never
changes). -/
theorem render_timestep_rerender_identical (viz : EconVisualizer)
    (concept : EconomicConcept) (idx : Int) :
    render_timestep (render_timestep viz concept idx).viz concept idx =
      render_timestep viz concept idx :=
  render_timestep_congr _ _ concept idx (render_timestep_figsize viz concept idx)

/-- C9: for every negative index `idx` with `-len ≤ idx < 0`,
`render_timestep` succeeds (Python negative indexing) and renders the
frame at position `len + idx` from the front. -/
theorem render_timestep_negative_index (viz : EconVisualizer)
    (concept : EconomicConcept) (idx : Int)
    (h1 : -(concept.time_steps.length : Int) ≤ idx) (h2 : idx < 0) :
    (render_timestep viz concept idx).raised = none ∧
    ∃ timestep,
      concept.time_steps[((concept.time_steps.length : Int) + idx).toNat]? = some timestep ∧
      (render_timestep viz concept idx).events =
        (render_body concept timestep).map Event.draw := by
  obtain ⟨ts, hget, hpy⟩ := py_list_get_neg concept.time_steps idx h1 h2
  exact ⟨by simp [render_timestep, hpy], ts, hget, by simp [render_timestep, hpy]⟩

/-- Witness for C9 at a two-frame concept and index `-1`. -/
theorem render_timestep_negative_index_witness :
    (render_timestep sample_viz sample_concept (-1)).raised = none ∧
    ∃ timestep,
      sample_concept.time_steps[((sample_concept.time_steps.length : Int) + (-1)).toNat]? =
        some timestep ∧
      (render_timestep sample_viz sample_concept (-1)).events =
        (render_body sample_concept timestep).map Event.draw :=
  render_timestep_negative_index sample_viz sample_concept (-1) (by decide) (by decide)

/-- C10: `render_timestep` installs a fresh canvas before it indexes the
frame list, so a call failing on an out-of-range index has already
replaced the previously active canvas — whatever it was — with a new
empty one. -/
theorem render_timestep_error_fresh_canvas (viz : EconVisualizer)
    (concept : EconomicConcept) (idx : Int)
    (h : (concept.time_steps.length : Int) ≤ idx ∨ idx < -(concept.time_steps.length : Int)) :
    (render_timestep viz concept idx).raised.isSome = true ∧
    (render_timestep viz concept idx).viz.canvas = some (setup_canvas viz.figsize) ∧
    (setup_canvas viz.figsize).prims = [] := by
  have hn := py_list_get_eq_none concept.time_steps idx h
  refine ⟨?_, ?_, rfl⟩ <;> simp [render_timestep, hn]

/-- Witness for C10 at a two-frame concept, index 99, starting from a
state whose active canvas already holds a primitive. -/
theorem render_timestep_error_fresh_canvas_witness :
    (render_timestep
        { figsize := (14, 10),
          canvas := some { figsize := (14, 10),
                           prims := [Prim.circle 0 0 1 "tan" "#333" 1] } }
        sample_concept 99).raised.isSome = true ∧
    (render_timestep
        { figsize := (14, 10),
          canvas := some { figsize := (14, 10),
                           prims := [Prim.circle 0 0 1 "tan" "#333" 1] } }
        sample_concept 99).viz.canvas = some (setup_canvas (14, 10)) ∧
    (setup_canvas (14, 10)).prims = [] :=
  render_timestep_error_fresh_canvas
    { figsize := (14, 10),
      canvas := some { figsize := (14, 10), prims := [Prim.circle 0 0 1 "tan" "#333" 1] } }
    sample_concept 99 (Or.inl (by decide))

end EconViz
